import Mathlib

/-!
Shallow embedding of the alx-backend-graphql_crm repository: the Django models
(crm/models.py), the GraphQL mutations (crm/schema.py), and the cron job
functions (crm/cron.py).  The relational database is modelled as explicit
lists of records threaded through each mutation.  Prices are
DecimalField(decimal_places=2) values; Decimal arithmetic on them is exact,
so they are modelled exactly as integers counting hundredths (cents):
10.00 is 1000, 5.50 is 550, 9.99 is 999.  Sums and sign comparisons of
Decimal values coincide with sums and sign comparisons of their cent
counts.  IntegerField is modelled as Int and ids as Nat.
-/

/- ==================== Data model (crm/models.py) ==================== -/

/-- Customer row: models.py lines 7-19.  `email` is unique, `phone` optional. -/
structure Customer where
  id : Nat
  name : String
  email : String
  phone : Option String
deriving DecidableEq, Repr

/-- Product row: models.py lines 22-41.  `price` is a DecimalField with two
decimal places (modelled exactly in cents), `stock` an IntegerField. -/
structure Product where
  id : Nat
  name : String
  price : Int
  stock : Int
deriving DecidableEq, Repr

/-- Order row: models.py lines 44-72.  `products` is a many-to-many set,
modelled as the list of distinct associated product ids.  `order_date` has
auto_now_add=True (models.py line 57). -/
structure Order where
  id : Nat
  customerId : Nat
  productIds : List Nat
  totalAmount : Int
  orderDate : Nat
deriving DecidableEq, Repr

/-- The relational database state: the three tables plus primary-key
counters used to assign fresh ids on insert. -/
structure DB where
  customers : List Customer
  products : List Product
  orders : List Order
  nextCustomerId : Nat
  nextProductId : Nat
  nextOrderId : Nat
deriving DecidableEq, Repr

/- ==================== validate_phone (schema.py lines 80-88) ==================== -/

/-- Python regex character class \d. -/
def isDigitChar (c : Char) : Bool := c.isDigit

/-- Python regex character class \s: space, tab, newline, carriage return,
form feed, vertical tab. -/
def isSpaceChar (c : Char) : Bool :=
  c = ' ' || c = '\t' || c = '\n' || c = '\r' || c = '\x0b' || c = '\x0c'

/-- Separator class [-.\s] of the phone pattern. -/
def isSepChar (c : Char) : Bool := c = '-' || c = '.' || isSpaceChar c

/-- Regex building block: consume one character satisfying `p`; the result is
the list of possible remainders (empty when no match). -/
def pChar (p : Char → Bool) : List Char → List (List Char)
  | [] => []
  | c :: cs => if p c then [cs] else []

/-- Regex sequencing. -/
def pThen (a b : List Char → List (List Char)) (s : List Char) : List (List Char) :=
  (a s).flatMap b

/-- Regex option (the `?` quantifier): match nothing or `a`. -/
def pOpt (a : List Char → List (List Char)) (s : List Char) : List (List Char) :=
  s :: a s

/-- Exactly `n` repetitions of a character class (the `{n}` quantifier). -/
def pCount (p : Char → Bool) : Nat → List Char → List (List Char)
  | 0, s => [s]
  | n + 1, s => pThen (pChar p) (pCount p n) s

/-- Between 1 and 3 repetitions of a character class (the `{1,3}` quantifier). -/
def pOneToThree (p : Char → Bool) (s : List Char) : List (List Char) :=
  pCount p 1 s ++ pCount p 2 s ++ pCount p 3 s

/-- The phone pattern of schema.py line 87, built group by group:
(\+?\d{1,3}[-.\s]?)?(\(?\d{3}\)?[-.\s]?)?\d{3}[-.\s]?\d{4}$ . -/
def phonePattern : List Char → List (List Char) :=
  pThen
    (pOpt (pThen (pOpt (pChar (fun c => c = '+')))
                 (pThen (pOneToThree isDigitChar) (pOpt (pChar isSepChar)))))
    (pThen
      (pOpt (pThen (pOpt (pChar (fun c => c = '(')))
                   (pThen (pCount isDigitChar 3)
                          (pThen (pOpt (pChar (fun c => c = ')')))
                                 (pOpt (pChar isSepChar))))))
      (pThen (pCount isDigitChar 3)
             (pThen (pOpt (pChar isSepChar)) (pCount isDigitChar 4))))

/-- validate_phone: schema.py lines 80-88.  Empty (falsy) input is accepted.
re.match anchors at the start; the trailing $ accepts the end of the string
or a final newline. -/
def validate_phone (phone : String) : Bool :=
  if phone = "" then true
  else (phonePattern phone.toList).any (fun r => r = [] || r = ['\n'])

/- ==================== CreateCustomer (schema.py lines 93-148) ==================== -/

/-- GraphQL input type CustomerInput: schema.py lines 60-63. -/
structure CustomerInput where
  name : String
  email : String
  phone : Option String
deriving DecidableEq, Repr

/-- Result payload of CreateCustomer: schema.py lines 99-101. -/
structure CreateCustomerResult where
  customer : Option Customer
  message : String
  success : Bool
deriving DecidableEq, Repr

/-- Python truthiness of the optional phone string (None and "" are falsy). -/
def pyTruthy (s : Option String) : Bool :=
  match s with
  | none => false
  | some t => t ≠ ""

/-- Customer.objects.create for a mutation input: a fresh id, the given
name and email, and the phone when truthy (None is stored otherwise,
schema.py line 128). -/
def customerFromInput (db : DB) (d : CustomerInput) : Customer :=
  { id := db.nextCustomerId, name := d.name, email := d.email,
    phone := if pyTruthy d.phone then d.phone else none }

/-- Insert one customer row and advance the primary-key counter. -/
def insertCustomer (db : DB) (c : Customer) : DB :=
  { db with customers := db.customers ++ [c],
            nextCustomerId := db.nextCustomerId + 1 }

/-- CreateCustomer.mutate: schema.py lines 103-148.  Django's external
`validate_email` is a black box and is passed in as an oracle `validEmail`
returning `none` when the email is accepted and `some msg` when it raises
ValidationError with text `msg` (caught at schema.py line 137). -/
def CreateCustomer.mutate (validEmail : String → Option String) (db : DB)
    (input : CustomerInput) : CreateCustomerResult × DB :=
  match validEmail input.email with
  | some err =>
    ({ customer := none, message := "Validation error: " ++ err, success := false }, db)
  | none =>
    if db.customers.any (fun c => c.email = input.email) then
      ({ customer := none, message := "Email already exists", success := false }, db)
    else if pyTruthy input.phone && !validate_phone (input.phone.getD "") then
      ({ customer := none,
         message := "Invalid phone format. Use +1234567890 or 123-456-7890",
         success := false }, db)
    else
      ({ customer := some (customerFromInput db input),
         message := "Customer created successfully", success := true },
       insertCustomer db (customerFromInput db input))

/- ==================== BulkCreateCustomers (schema.py lines 151-198) ==================== -/

/-- Result payload of BulkCreateCustomers: schema.py lines 157-159.
`errors` is None when the error list is empty (schema.py line 196). -/
structure BulkCreateCustomersResult where
  customers : List Customer
  errors : Option (List String)
  success : Bool
deriving DecidableEq, Repr

/-- The per-entry loop of BulkCreateCustomers.mutate: schema.py lines 166-192.
`idx` is the zero-based enumerate index; error strings use `idx + 1` as the
row number.  Each failing entry appends exactly one error string and is
skipped; each valid entry is created immediately, so later duplicate checks
run against the already-extended customer table. -/
def bulkLoop (validEmail : String → Option String) :
    List CustomerInput → Nat → DB → List Customer → List String →
    List Customer × List String × DB
  | [], _, db, cs, es => (cs, es, db)
  | d :: rest, idx, db, cs, es =>
    match validEmail d.email with
    | some err =>
      bulkLoop validEmail rest (idx + 1) db cs
        (es ++ ["Row " ++ toString (idx + 1) ++ ": Validation error - " ++ err])
    | none =>
      if db.customers.any (fun c => c.email = d.email) then
        bulkLoop validEmail rest (idx + 1) db cs
          (es ++ ["Row " ++ toString (idx + 1) ++ ": Email " ++ d.email ++ " already exists"])
      else if pyTruthy d.phone && !validate_phone (d.phone.getD "") then
        bulkLoop validEmail rest (idx + 1) db cs
          (es ++ ["Row " ++ toString (idx + 1) ++ ": Invalid phone format for " ++ d.email])
      else
        bulkLoop validEmail rest (idx + 1)
          (insertCustomer db (customerFromInput db d))
          (cs ++ [customerFromInput db d]) es

/-- BulkCreateCustomers.mutate: schema.py lines 161-198.  success is
len(customers) > 0; errors is the list when non-empty, else None. -/
def BulkCreateCustomers.mutate (validEmail : String → Option String) (db : DB)
    (input : List CustomerInput) : BulkCreateCustomersResult × DB :=
  ({ customers := (bulkLoop validEmail input 0 db [] []).1,
     errors := if (bulkLoop validEmail input 0 db [] []).2.1 = [] then none
               else some (bulkLoop validEmail input 0 db [] []).2.1,
     success := decide ((bulkLoop validEmail input 0 db [] []).1.length > 0) },
   (bulkLoop validEmail input 0 db [] []).2.2)

/- ==================== CreateProduct (schema.py lines 201-248) ==================== -/

/-- GraphQL input type ProductInput: schema.py lines 66-69. -/
structure ProductInput where
  name : String
  price : Int
  stock : Option Int
deriving DecidableEq, Repr

/-- Result payload of CreateProduct: schema.py lines 207-209. -/
structure CreateProductResult where
  product : Option Product
  message : String
  success : Bool
deriving DecidableEq, Repr

/-- CreateProduct.mutate: schema.py lines 211-248.  Price must be strictly
positive; stock defaults to 0 when omitted and must be non-negative. -/
def CreateProduct.mutate (db : DB) (input : ProductInput) :
    CreateProductResult × DB :=
  if input.price ≤ 0 then
    ({ product := none, message := "Price must be positive", success := false }, db)
  else
    let stock := input.stock.getD 0
    if stock < 0 then
      ({ product := none, message := "Stock cannot be negative", success := false }, db)
    else
      let p : Product :=
        { id := db.nextProductId, name := input.name, price := input.price, stock := stock }
      ({ product := some p, message := "Product created successfully", success := true },
       { db with products := db.products ++ [p], nextProductId := db.nextProductId + 1 })

/- ==================== CreateOrder (schema.py lines 251-321) ==================== -/

/-- GraphQL input type OrderInput: schema.py lines 72-75. -/
structure OrderInput where
  customerId : Nat
  productIds : List Nat
  orderDate : Option Nat
deriving DecidableEq, Repr

/-- Result payload of CreateOrder: schema.py lines 257-259. -/
structure CreateOrderResult where
  order : Option Order
  message : String
  success : Bool
deriving DecidableEq, Repr

/-- The product resolution loop of CreateOrder.mutate: schema.py lines
282-292.  Resolves each product id in order; the first id that does not
resolve aborts the whole mutation with that id. -/
def resolveProducts (db : DB) : List Nat → List Product → Except Nat (List Product)
  | [], acc => .ok acc
  | pid :: rest, acc =>
    match db.products.find? (fun p => p.id = pid) with
    | some p => resolveProducts db rest (acc ++ [p])
    | none => .error pid

/-- CreateOrder.mutate: schema.py lines 261-321.  `now` is the server clock
at insert time.  The code passes input.order_date to Order.objects.create
(schema.py line 299), but the model field has auto_now_add=True
(models.py line 57), so the ORM assigns the insert timestamp and discards
the supplied value.  order.products.set(products) stores the distinct set
of associations, modelled as the deduplicated id list.  The transaction
(schema.py line 295) commits the order row, its associations and its total
together, which the single functional update models directly. -/
def CreateOrder.mutate (db : DB) (input : OrderInput) (now : Nat) :
    CreateOrderResult × DB :=
  match db.customers.find? (fun c => c.id = input.customerId) with
  | none =>
    ({ order := none,
       message := "Customer with ID " ++ toString input.customerId ++ " not found",
       success := false }, db)
  | some customer =>
    if input.productIds.isEmpty then
      ({ order := none, message := "At least one product must be selected",
         success := false }, db)
    else
      match resolveProducts db input.productIds [] with
      | .error pid =>
        ({ order := none, message := "Invalid product ID: " ++ toString pid,
           success := false }, db)
      | .ok products =>
        let total := (products.map (fun p => p.price)).sum
        let o : Order :=
          { id := db.nextOrderId, customerId := customer.id,
            productIds := (products.map (fun p => p.id)).dedup,
            totalAmount := total, orderDate := now }
        ({ order := some o, message := "Order created successfully", success := true },
         { db with orders := db.orders ++ [o], nextOrderId := db.nextOrderId + 1 })

/- ==================== UpdateLowStockProducts (schema.py lines 30-47) ==================== -/

/-- Result payload of UpdateLowStockProducts: schema.py lines 31-32.
The class declares only `message` and `updated_products`; there is no
success field. -/
structure UpdateLowStockProductsResult where
  message : String
  updated_products : List Product
deriving DecidableEq, Repr

/-- Add the fixed restock increment of 10 (schema.py line 40). -/
def bumpStock (p : Product) : Product := { p with stock := p.stock + 10 }

/-- product.save(): write the record back to its row, identified by primary
key. -/
def saveProduct (ps : List Product) (q : Product) : List Product :=
  ps.map (fun p => if p.id = q.id then q else p)

/-- UpdateLowStockProducts.mutate: schema.py lines 34-47.  The source loop
interleaves `product.stock += 10; product.save(); updated.append(product)`
per product; since each save touches only that product's row and the
queryset was already materialised, this equals bumping every low-stock
product and folding the saves in order. -/
def UpdateLowStockProducts.mutate (db : DB) : UpdateLowStockProductsResult × DB :=
  let low := db.products.filter (fun p => p.stock < 10)
  let updated := low.map bumpStock
  ({ message := toString updated.length ++ " products updated successfully",
     updated_products := updated },
   { db with products := updated.foldl saveProduct db.products })

/- ==================== Cron jobs (crm/cron.py) ==================== -/

/-- JSON values, as decoded by response.json(). -/
inductive Json where
  | null
  | bool (b : Bool)
  | num (n : Int)
  | str (s : String)
  | arr (xs : List Json)
  | obj (fields : List (String × Json))
deriving Repr

/-- Python f-string rendering of a decoded JSON value. -/
def pyStr : Json → String
  | .null => "None"
  | .bool b => if b then "True" else "False"
  | .num n => toString n
  | .str s => s
  | .arr _ => "[...]"
  | .obj _ => "\x7b...\x7d"

/-- Python subscript data[k] on a decoded JSON value: raises KeyError when the
key is absent from a dict, TypeError when the value is not a dict. -/
def jsonIndex (j : Json) (k : String) : Except String Json :=
  match j with
  | .obj fields =>
    match fields.find? (fun f => f.1 = k) with
    | some f => .ok f.2
    | none => .error ("KeyError: " ++ k)
  | _ => .error "TypeError: value is not subscriptable by string"

/-- Python membership test `k in data` on a decoded JSON value: key lookup on
dicts, substring test on strings, element equality on lists, TypeError
otherwise. -/
def pyContains (j : Json) (k : String) : Except String Bool :=
  match j with
  | .obj fields => .ok (fields.any (fun f => f.1 = k))
  | .str s => .ok (decide ((s.splitOn k).length > 1))
  | .arr xs =>
    .ok (xs.any (fun x => match x with | .str t => t = k | _ => false))
  | _ => .error "TypeError: argument is not a container"

/-- The body of the inner try of update_low_stock (cron.py lines 33-38):
data["data"]["updateLowStockProducts"]["updatedProducts"] is extracted and
each product formatted; any KeyError/TypeError along the way is the caught
exception. -/
def extractUpdatedLines (data : Json) : Except String (List String) := do
  let d1 ← jsonIndex data "data"
  let d2 ← jsonIndex d1 "updateLowStockProducts"
  let d3 ← jsonIndex d2 "updatedProducts"
  match d3 with
  | .arr products =>
    products.mapM (fun p => do
      let nm ← jsonIndex p "name"
      let st ← jsonIndex p "stock"
      pure (pyStr nm ++ " → New Stock: " ++ pyStr st))
  | _ => .error "TypeError: value is not iterable"

/-- update_low_stock: cron.py lines 10-42.  `post` is the outcome of the
outbound HTTP call: `.error e` when requests.post raises (network error),
`.ok (.error e)` when response.json() raises (undecodable body), and
`.ok (.ok data)` for a decoded body.  Both of those calls sit OUTSIDE any
try block (cron.py lines 25-26), so their exceptions propagate to the
invoker; only the shape-dependent extraction (lines 33-42) is guarded.
The returned lines model the block appended to the log file. -/
def update_low_stock (post : Except String (Except String Json)) (nowStr : String) :
    Except String (List String) :=
  match post with
  | .error e => .error e
  | .ok jr =>
    match jr with
    | .error e => .error e
    | .ok data =>
      let header := "=== Update Run: " ++ nowStr ++ " ==="
      let body :=
        match extractUpdatedLines data with
        | .ok lines => lines ++ ["Status: SUCCESS"]
        | .error e => ["Error: " ++ e, "Raw response: " ++ pyStr data]
      .ok (header :: body)

/-- An HTTP response as seen by the heartbeat job: the status code and the
outcome of response.json(). -/
structure HttpResponse where
  status_code : Int
  jsonResult : Except String Json

/-- The try block of log_crm_heartbeat (cron.py lines 60-74): the suffix
appended to the base message on success, or the caught exception's text on
failure.  `post` is `.error e` when requests.post itself raises. -/
def heartbeatCheck (post : Except String HttpResponse) : Except String String := do
  let response ← post
  if response.status_code = 200 then
    let data ← response.jsonResult
    let hasData ← pyContains data "data"
    if hasData then
      let d ← jsonIndex data "data"
      let hasHello ← pyContains d "hello"
      if hasHello then
        let h ← jsonIndex d "hello"
        pure (" - GraphQL endpoint responsive: " ++ pyStr h)
      else
        pure ""
    else
      pure ""
  else
    pure (" - GraphQL endpoint returned status " ++ toString response.status_code)

/-- log_crm_heartbeat: cron.py lines 45-78.  Every outcome of the optional
health check is folded into the single message line; the function is total,
returning the one line appended to the log file. -/
def log_crm_heartbeat (post : Except String HttpResponse) (timestamp : String) :
    List String :=
  let base := timestamp ++ " CRM is alive"
  let message :=
    match heartbeatCheck post with
    | .ok suffix => base ++ suffix
    | .error e => base ++ " - GraphQL endpoint check failed: " ++ e
  [message]

/-- The cumulative effect of a sequence of row saves on a single row:
the row is replaced by each save whose primary key matches. -/
def applySaves (qs : List Product) (p : Product) : Product :=
  qs.foldl (fun r q => if r.id = q.id then q else r) p

/- ==================== Example database states ==================== -/

/-- A small database: one customer, two products priced 10.00 and 5.50. -/
def dbEx : DB :=
  { customers := [⟨1, "Alice", "alice@example.com", none⟩],
    products := [⟨1, "Widget", 1000, 3⟩, ⟨2, "Gadget", 550, 15⟩],
    orders := [],
    nextCustomerId := 2, nextProductId := 3, nextOrderId := 1 }

/-- A database whose products have stock values [3, 15, 7]. -/
def dbStocks : DB :=
  { customers := [],
    products := [⟨1, "A", 1, 3⟩, ⟨2, "B", 1, 15⟩, ⟨3, "C", 1, 7⟩],
    orders := [],
    nextCustomerId := 1, nextProductId := 4, nextOrderId := 1 }

/- Sanity checks of the phone-pattern embedding on the formats the
docstring of validate_phone names (schema.py line 83). -/
example : validate_phone "+1234567890" = true := by decide
example : validate_phone "123-456-7890" = true := by decide
example : validate_phone "(123) 456-7890" = true := by decide
example : validate_phone "12ab" = false := by decide

/- ==================== Claim C3 ==================== -/

/-- Claim C3, counterexample: with zero low-stock products the message is
"0 products updated successfully", not "No low-stock products found", so the
claimed zero-case message does not hold (and the result type carries no
success field at all). -/
theorem c3_counterexample :
    (UpdateLowStockProducts.mutate
        { customers := [], products := [], orders := [],
          nextCustomerId := 1, nextProductId := 1, nextOrderId := 1 }).1.message ≠
      "No low-stock products found" := by decide

/-- Claim C3 (amended): the result of UpdateLowStockProducts has no success
flag, and its message is always "N products updated successfully" where N is
the number of products with stock below 10 — including
"0 products updated successfully" when none qualify. -/
theorem c3_message_always_count (db : DB) :
    (UpdateLowStockProducts.mutate db).1.message =
      toString (db.products.filter (fun p => p.stock < 10)).length ++
        " products updated successfully" := by
  simp [UpdateLowStockProducts.mutate]

/- ==================== Claim C4 ==================== -/

/-- Claim C4, counterexample: a network error raised by requests.post inside
the low-stock restock job propagates to the invoker instead of being caught
and logged, because the HTTP call sits outside every try block
(cron.py lines 25-26). -/
theorem c4_counterexample :
    update_low_stock (Except.error "ConnectionError: connection refused") "2026-01-01" =
      Except.error "ConnectionError: connection refused" := rfl

/-- Claim C4 (amended): the heartbeat job catches every failure of its
optional health check and always yields exactly one log line; the low-stock
job catches only response-shape errors once the body is decoded, while an
exception from the HTTP request itself or from JSON decoding propagates to
its invoker. -/
theorem c4_job_error_boundaries :
    (∀ post ts, ∃ suffix, log_crm_heartbeat post ts = [ts ++ " CRM is alive" ++ suffix]) ∧
    (∀ data ts, (update_low_stock (Except.ok (Except.ok data)) ts).isOk = true) ∧
    (∀ e ts, update_low_stock (Except.error e) ts = Except.error e) ∧
    (∀ e ts, update_low_stock (Except.ok (Except.error e)) ts = Except.error e) := by
  refine ⟨?_, ?_, fun e ts => rfl, fun e ts => rfl⟩
  · intro post ts
    unfold log_crm_heartbeat
    cases h : heartbeatCheck post with
    | ok s => exact ⟨s, rfl⟩
    | error e =>
      refine ⟨" - GraphQL endpoint check failed: " ++ e, ?_⟩
      show [ts ++ " CRM is alive" ++ " - GraphQL endpoint check failed: " ++ e] = _
      rw [String.append_assoc (ts ++ " CRM is alive")]
  · intro data ts
    rfl

/- ==================== Claim C8 ==================== -/

/-- Claim C8: CreateProduct fails softly when price ≤ 0 or when the provided
stock is negative, leaving the database unchanged; otherwise it succeeds and
persists the product with stock defaulting to 0 when omitted. -/
theorem c8_createProduct_validation (db : DB) (input : ProductInput) :
    (input.price ≤ 0 →
      (CreateProduct.mutate db input).1.success = false ∧
      (CreateProduct.mutate db input).2 = db) ∧
    (0 < input.price → input.stock.getD 0 < 0 →
      (CreateProduct.mutate db input).1.success = false ∧
      (CreateProduct.mutate db input).2 = db) ∧
    (0 < input.price → 0 ≤ input.stock.getD 0 →
      (CreateProduct.mutate db input).1.success = true ∧
      ∃ p, (CreateProduct.mutate db input).1.product = some p ∧
        p.name = input.name ∧ p.price = input.price ∧ p.stock = input.stock.getD 0 ∧
        (CreateProduct.mutate db input).2.products = db.products ++ [p]) := by
  refine ⟨fun hle => ?_, fun hpos hneg => ?_, fun hpos hnn => ?_⟩
  · simp [CreateProduct.mutate, if_pos hle]
  · rw [CreateProduct.mutate, if_neg (by exact not_le.mpr hpos)]
    simp [if_pos hneg]
  · rw [CreateProduct.mutate, if_neg (by exact not_le.mpr hpos)]
    rw [if_neg (by exact not_lt.mpr hnn)]
    exact ⟨rfl, _, rfl, rfl, rfl, rfl, rfl⟩

/-- Claim C8, witness: price=0 fails; price=9.99 (999 cents) with stock
omitted succeeds and the created product has stock 0. -/
theorem c8_witness :
    (CreateProduct.mutate dbEx ⟨"Zero", 0, none⟩).1.success = false ∧
    (CreateProduct.mutate dbEx ⟨"Nice", 999, none⟩).1.success = true ∧
    (CreateProduct.mutate dbEx ⟨"Nice", 999, none⟩).1.product =
      some ⟨3, "Nice", 999, 0⟩ := by
  refine ⟨((c8_createProduct_validation dbEx ⟨"Zero", 0, none⟩).1 (by decide)).1,
          ((c8_createProduct_validation dbEx ⟨"Nice", 999, none⟩).2.2
            (by decide) (by decide)).1, by decide⟩

/- ==================== Claim C5 ==================== -/

/-- Claim C5: CreateCustomer fails softly — success=false and no exception
(the embedding is a total function) — whenever the email is rejected by the
validator, the email already belongs to an existing customer, or a provided
(truthy) phone fails format validation; in every such case the database,
and in particular the customer table, is unchanged. -/
theorem c5_createCustomer_soft_failures (validEmail : String → Option String)
    (db : DB) (input : CustomerInput) :
    (validEmail input.email ≠ none ∨
      (validEmail input.email = none ∧
        db.customers.any (fun c => c.email = input.email) = true) ∨
      (validEmail input.email = none ∧
        db.customers.any (fun c => c.email = input.email) = false ∧
        pyTruthy input.phone = true ∧
        validate_phone (input.phone.getD "") = false)) →
    (CreateCustomer.mutate validEmail db input).1.success = false ∧
    (CreateCustomer.mutate validEmail db input).2 = db := by
  intro h
  unfold CreateCustomer.mutate
  rcases h with h | ⟨h1, h2⟩ | ⟨h1, h2, h3, h4⟩
  · cases hv : validEmail input.email with
    | some err => exact ⟨rfl, rfl⟩
    | none => exact absurd hv h
  · rw [h1]
    simp [h2]
  · rw [h1]
    simp [h2, h3, h4]

/-- Claim C5, witness: creating a customer whose email is already present
returns success=false and leaves the customer table without a new row. -/
theorem c5_witness :
    (CreateCustomer.mutate (fun _ => none) dbEx
        ⟨"Bob", "alice@example.com", none⟩).1.success = false ∧
    (CreateCustomer.mutate (fun _ => none) dbEx
        ⟨"Bob", "alice@example.com", none⟩).2 = dbEx :=
  c5_createCustomer_soft_failures (fun _ => none) dbEx
    ⟨"Bob", "alice@example.com", none⟩ (Or.inr (Or.inl ⟨rfl, by decide⟩))

/- ==================== CreateOrder branch equations ==================== -/

/-- CreateOrder when the customer id does not resolve. -/
lemma createOrder_customer_missing (db : DB) (input : OrderInput) (now : Nat)
    (hc : db.customers.find? (fun c => c.id = input.customerId) = none) :
    CreateOrder.mutate db input now =
      ({ order := none,
         message := "Customer with ID " ++ toString input.customerId ++ " not found",
         success := false }, db) := by
  rw [CreateOrder.mutate, hc]

/-- CreateOrder when the customer resolves but the product list is empty. -/
lemma createOrder_empty_products (db : DB) (input : OrderInput) (now : Nat)
    (c : Customer)
    (hc : db.customers.find? (fun x => x.id = input.customerId) = some c)
    (he : input.productIds.isEmpty = true) :
    CreateOrder.mutate db input now =
      ({ order := none, message := "At least one product must be selected",
         success := false }, db) := by
  rw [CreateOrder.mutate, hc]
  exact if_pos he

/-- CreateOrder when some product id fails to resolve. -/
lemma createOrder_bad_product (db : DB) (input : OrderInput) (now : Nat)
    (c : Customer) (pid : Nat)
    (hc : db.customers.find? (fun x => x.id = input.customerId) = some c)
    (he : input.productIds.isEmpty = false)
    (hr : resolveProducts db input.productIds [] = .error pid) :
    CreateOrder.mutate db input now =
      ({ order := none, message := "Invalid product ID: " ++ toString pid,
         success := false }, db) := by
  rw [CreateOrder.mutate, hc]
  show (if input.productIds.isEmpty = true then _ else _) = _
  rw [if_neg (by simp [he]), hr]

/-- CreateOrder on the success path: the transaction appends exactly one
order row carrying the resolved customer, the deduplicated association set,
the price total, and the server-assigned insert time. -/
lemma createOrder_ok (db : DB) (input : OrderInput) (now : Nat)
    (c : Customer) (prods : List Product)
    (hc : db.customers.find? (fun x => x.id = input.customerId) = some c)
    (he : input.productIds.isEmpty = false)
    (hr : resolveProducts db input.productIds [] = .ok prods) :
    CreateOrder.mutate db input now =
      ({ order := some
           { id := db.nextOrderId, customerId := c.id,
             productIds := (prods.map (fun p => p.id)).dedup,
             totalAmount := (prods.map (fun p => p.price)).sum,
             orderDate := now },
         message := "Order created successfully", success := true },
       { db with
           orders := db.orders ++
             [{ id := db.nextOrderId, customerId := c.id,
                productIds := (prods.map (fun p => p.id)).dedup,
                totalAmount := (prods.map (fun p => p.price)).sum,
                orderDate := now }],
           nextOrderId := db.nextOrderId + 1 }) := by
  rw [CreateOrder.mutate, hc]
  show (if input.productIds.isEmpty = true then _ else _) = _
  rw [if_neg (by simp [he]), hr]

/- ==================== Claim C7 ==================== -/

/-- The resolution loop aborts with the first unresolvable product id:
every id before it resolves, the offending id does not. -/
lemma resolveProducts_first_error (db : DB) (pre : List Nat) (pid : Nat)
    (post : List Nat) (acc : List Product)
    (hpre : ∀ q ∈ pre, (db.products.find? (fun p => p.id = q)).isSome)
    (hpid : db.products.find? (fun p => p.id = pid) = none) :
    resolveProducts db (pre ++ pid :: post) acc = .error pid := by
  induction pre generalizing acc with
  | nil => simp [resolveProducts, hpid]
  | cons q rest ih =>
    obtain ⟨p, hp⟩ := Option.isSome_iff_exists.mp (hpre q (by simp))
    rw [List.cons_append, resolveProducts, hp]
    exact ih (acc ++ [p]) (fun r hr => hpre r (List.mem_cons_of_mem q hr))

/-- Claim C7: CreateOrder fails softly — success=false, database unchanged,
so no order row and no product associations — when the customer id does not
resolve, when product_ids is empty, or when some product id does not
resolve; in that last case the message reports the first offending id. -/
theorem c7_createOrder_soft_failures (db : DB) (input : OrderInput) (now : Nat) :
    (db.customers.find? (fun c => c.id = input.customerId) = none →
      (CreateOrder.mutate db input now).1.success = false ∧
      (CreateOrder.mutate db input now).2 = db) ∧
    ((db.customers.find? (fun c => c.id = input.customerId)).isSome →
      input.productIds = [] →
      (CreateOrder.mutate db input now).1.success = false ∧
      (CreateOrder.mutate db input now).2 = db) ∧
    (∀ pre pid post,
      (db.customers.find? (fun c => c.id = input.customerId)).isSome →
      input.productIds = pre ++ pid :: post →
      (∀ q ∈ pre, (db.products.find? (fun p => p.id = q)).isSome) →
      db.products.find? (fun p => p.id = pid) = none →
      (CreateOrder.mutate db input now).1.success = false ∧
      (CreateOrder.mutate db input now).1.message =
        "Invalid product ID: " ++ toString pid ∧
      (CreateOrder.mutate db input now).2 = db) := by
  refine ⟨fun hc => ?_, fun hc hemp => ?_, fun pre pid post hc hsplit hpre hpid => ?_⟩
  · rw [createOrder_customer_missing db input now hc]
    exact ⟨rfl, rfl⟩
  · obtain ⟨c, hcc⟩ := Option.isSome_iff_exists.mp hc
    rw [createOrder_empty_products db input now c hcc (by simp [hemp])]
    exact ⟨rfl, rfl⟩
  · obtain ⟨c, hcc⟩ := Option.isSome_iff_exists.mp hc
    have hrr : resolveProducts db input.productIds [] = .error pid := by
      rw [hsplit]
      exact resolveProducts_first_error db pre pid post [] hpre hpid
    have hne : input.productIds.isEmpty = false := by
      rw [hsplit]; simp
    rw [createOrder_bad_product db input now c pid hcc hne hrr]
    exact ⟨rfl, rfl, rfl⟩

/-- Claim C7, witness: against the example database, an unknown customer id,
an empty product list, and a product list whose second id is unknown each
fail softly with the database unchanged, the last reporting id 99. -/
theorem c7_witness :
    ((CreateOrder.mutate dbEx ⟨7, [1], none⟩ 0).1.success = false ∧
      (CreateOrder.mutate dbEx ⟨7, [1], none⟩ 0).2 = dbEx) ∧
    ((CreateOrder.mutate dbEx ⟨1, [], none⟩ 0).1.success = false ∧
      (CreateOrder.mutate dbEx ⟨1, [], none⟩ 0).2 = dbEx) ∧
    ((CreateOrder.mutate dbEx ⟨1, [1, 99], none⟩ 0).1.success = false ∧
      (CreateOrder.mutate dbEx ⟨1, [1, 99], none⟩ 0).1.message =
        "Invalid product ID: " ++ toString 99 ∧
      (CreateOrder.mutate dbEx ⟨1, [1, 99], none⟩ 0).2 = dbEx) := by
  refine ⟨(c7_createOrder_soft_failures dbEx ⟨7, [1], none⟩ 0).1 (by decide),
          (c7_createOrder_soft_failures dbEx ⟨1, [], none⟩ 0).2.1 (by decide) rfl,
          (c7_createOrder_soft_failures dbEx ⟨1, [1, 99], none⟩ 0).2.2
            [1] 99 [] (by decide) rfl (by decide) (by decide)⟩

/- ==================== Claim C9 ==================== -/

/-- Claim C9: the optional order_date argument has no effect on
CreateOrder's outcome, and on success the persisted order's order_date is
the server-assigned insert time, because the model field is auto_now_add
(models.py line 57) and overrides the value the mutation supplies
(schema.py line 299). -/
theorem c9_orderDate_server_assigned (db : DB) (input : OrderInput) (now : Nat) :
    (∀ d, CreateOrder.mutate db { input with orderDate := d } now =
      CreateOrder.mutate db input now) ∧
    (∀ o, (CreateOrder.mutate db input now).1.order = some o → o.orderDate = now) := by
  refine ⟨fun d => rfl, fun o ho => ?_⟩
  cases hc : db.customers.find? (fun c => c.id = input.customerId) with
  | none =>
    rw [createOrder_customer_missing db input now hc] at ho
    cases ho
  | some c =>
    cases he : input.productIds.isEmpty with
    | true =>
      rw [createOrder_empty_products db input now c hc he] at ho
      cases ho
    | false =>
      cases hr : resolveProducts db input.productIds [] with
      | error pid =>
        rw [createOrder_bad_product db input now c pid hc he hr] at ho
        cases ho
      | ok prods =>
        rw [createOrder_ok db input now c prods hc he hr] at ho
        cases ho
        rfl

/-- Claim C9, witness: a supplied order_date of 123 and an absent order_date
produce identical results, and the persisted order carries the server
time 5. -/
theorem c9_witness :
    (CreateOrder.mutate dbEx ⟨1, [1, 2], some 123⟩ 5 =
      CreateOrder.mutate dbEx ⟨1, [1, 2], none⟩ 5) ∧
    (⟨1, 1, [1, 2], 1550, 5⟩ : Order).orderDate = 5 :=
  ⟨(c9_orderDate_server_assigned dbEx ⟨1, [1, 2], none⟩ 5).1 (some 123),
   (c9_orderDate_server_assigned dbEx ⟨1, [1, 2], none⟩ 5).2
     ⟨1, 1, [1, 2], 1550, 5⟩ (by decide)⟩

/- ==================== Claim C1 ==================== -/

/-- The resolution loop resolves ids in order: on success the resolved
products carry exactly the requested ids, after the accumulator. -/
lemma resolveProducts_ok_ids (db : DB) (pids : List Nat) (acc prods : List Product)
    (h : resolveProducts db pids acc = .ok prods) :
    prods.map (fun p => p.id) = acc.map (fun p => p.id) ++ pids := by
  induction pids generalizing acc with
  | nil =>
    rw [resolveProducts] at h
    cases h
    simp
  | cons pid rest ih =>
    rw [resolveProducts] at h
    cases hf : db.products.find? (fun p => p.id = pid) with
    | none => rw [hf] at h; cases h
    | some p =>
      rw [hf] at h
      have hid : p.id = pid := by
        have := List.find?_some hf
        exact of_decide_eq_true this
      have := ih (acc ++ [p]) h
      rw [this]
      simp [hid]

/-- Claim C1: a successful CreateOrder — resolvable customer, non-empty
product list, all ids resolvable — appends exactly one order row whose
total_amount is the sum of the resolved products' current prices and whose
association set consists of exactly the requested product ids. -/
theorem c1_createOrder_success (db : DB) (input : OrderInput) (now : Nat)
    (c : Customer) (prods : List Product)
    (hc : db.customers.find? (fun x => x.id = input.customerId) = some c)
    (hne : input.productIds ≠ [])
    (hr : resolveProducts db input.productIds [] = .ok prods) :
    (CreateOrder.mutate db input now).1.success = true ∧
    ∃ o, (CreateOrder.mutate db input now).1.order = some o ∧
      (CreateOrder.mutate db input now).2.orders = db.orders ++ [o] ∧
      (CreateOrder.mutate db input now).2.orders.length = db.orders.length + 1 ∧
      o.totalAmount = (prods.map (fun p => p.price)).sum ∧
      (∀ pid, pid ∈ o.productIds ↔ pid ∈ input.productIds) := by
  have he : input.productIds.isEmpty = false := by
    cases hpp : input.productIds with
    | nil => exact absurd hpp hne
    | cons a l => rfl
  rw [createOrder_ok db input now c prods hc he hr]
  refine ⟨rfl, _, rfl, rfl, by simp, rfl, fun pid => ?_⟩
  rw [List.mem_dedup, resolveProducts_ok_ids db input.productIds [] prods hr]
  simp

/-- Claim C1, witness: ordering the two example products priced 10.00 and
5.50 (1000 and 550 cents) succeeds with total 15.50 (1550 cents) and the
two associations [1, 2], in exactly one new order row. -/
theorem c1_witness :
    (CreateOrder.mutate dbEx ⟨1, [1, 2], none⟩ 0).1.success = true ∧
    (CreateOrder.mutate dbEx ⟨1, [1, 2], none⟩ 0).2.orders.length =
      dbEx.orders.length + 1 ∧
    (CreateOrder.mutate dbEx ⟨1, [1, 2], none⟩ 0).1.order =
      some ⟨1, 1, [1, 2], 1550, 0⟩ := by
  have h := c1_createOrder_success dbEx ⟨1, [1, 2], none⟩ 0
    ⟨1, "Alice", "alice@example.com", none⟩
    [⟨1, "Widget", 1000, 3⟩, ⟨2, "Gadget", 550, 15⟩]
    (by decide) (by decide) rfl
  exact ⟨h.1, h.2.choose_spec.2.2.1, by decide⟩

/- ==================== Claim C6 ==================== -/

/-- Each loop iteration contributes exactly one created customer or exactly
one error string; created customers are appended to the customer table in
order. -/
lemma bulkLoop_accounting (validEmail : String → Option String)
    (input : List CustomerInput) :
    ∀ idx db cs es,
      ∃ newCs newEs,
        (bulkLoop validEmail input idx db cs es).1 = cs ++ newCs ∧
        (bulkLoop validEmail input idx db cs es).2.1 = es ++ newEs ∧
        (bulkLoop validEmail input idx db cs es).2.2.customers =
          db.customers ++ newCs ∧
        newCs.length + newEs.length = input.length := by
  induction input with
  | nil => exact fun idx db cs es => ⟨[], [], by simp [bulkLoop], by simp [bulkLoop],
      by simp [bulkLoop], rfl⟩
  | cons d rest ih =>
    intro idx db cs es
    rw [bulkLoop]
    cases hv : validEmail d.email with
    | some err =>
      obtain ⟨newCs, newEs, h1, h2, h3, h4⟩ := ih (idx + 1) db cs
        (es ++ ["Row " ++ toString (idx + 1) ++ ": Validation error - " ++ err])
      refine ⟨newCs, ("Row " ++ toString (idx + 1) ++ ": Validation error - " ++ err) :: newEs,
        h1, by rw [h2]; simp, h3, ?_⟩
      simp only [List.length_cons]
      omega
    | none =>
      by_cases hdup : db.customers.any (fun c => c.email = d.email)
      · rw [if_pos hdup]
        obtain ⟨newCs, newEs, h1, h2, h3, h4⟩ := ih (idx + 1) db cs
          (es ++ ["Row " ++ toString (idx + 1) ++ ": Email " ++ d.email ++ " already exists"])
        refine ⟨newCs,
          ("Row " ++ toString (idx + 1) ++ ": Email " ++ d.email ++ " already exists") :: newEs,
          h1, by rw [h2]; simp, h3, ?_⟩
        simp only [List.length_cons]
        omega
      · rw [if_neg hdup]
        by_cases hph : (pyTruthy d.phone && !validate_phone (d.phone.getD "")) = true
        · rw [if_pos hph]
          obtain ⟨newCs, newEs, h1, h2, h3, h4⟩ := ih (idx + 1) db cs
            (es ++ ["Row " ++ toString (idx + 1) ++ ": Invalid phone format for " ++ d.email])
          refine ⟨newCs,
            ("Row " ++ toString (idx + 1) ++ ": Invalid phone format for " ++ d.email) :: newEs,
            h1, by rw [h2]; simp, h3, ?_⟩
          simp only [List.length_cons]
          omega
        · rw [if_neg hph]
          obtain ⟨newCs, newEs, h1, h2, h3, h4⟩ := ih (idx + 1)
            (insertCustomer db (customerFromInput db d))
            (cs ++ [customerFromInput db d]) es
          refine ⟨customerFromInput db d :: newCs, newEs,
            by rw [h1]; simp, h2, ?_, ?_⟩
          · rw [h3]
            simp [insertCustomer]
          · simp only [List.length_cons]
            omega

/-- Claim C6: BulkCreateCustomers processes entries independently — every
entry yields exactly one created customer or exactly one error string, so
created count plus error count equals the input length; the created
customers are exactly the rows appended to the customer table; success is
true iff at least one customer was created.  The concrete conjuncts settle
the example: two valid entries plus one duplicate-email entry yield two
created customers and exactly one error string. -/
theorem c6_bulkCreate_independent_entries :
    (∀ (validEmail : String → Option String) (db : DB) (input : List CustomerInput),
      (BulkCreateCustomers.mutate validEmail db input).1.customers.length +
        ((BulkCreateCustomers.mutate validEmail db input).1.errors.getD []).length =
          input.length ∧
      ((BulkCreateCustomers.mutate validEmail db input).1.success = true ↔
        (BulkCreateCustomers.mutate validEmail db input).1.customers ≠ []) ∧
      (BulkCreateCustomers.mutate validEmail db input).2.customers =
        db.customers ++ (BulkCreateCustomers.mutate validEmail db input).1.customers) ∧
    (BulkCreateCustomers.mutate (fun _ => none) dbEx
        [⟨"X", "x@example.com", none⟩, ⟨"Y", "y@example.com", none⟩,
         ⟨"Z", "alice@example.com", none⟩]).1.customers.length = 2 ∧
    (BulkCreateCustomers.mutate (fun _ => none) dbEx
        [⟨"X", "x@example.com", none⟩, ⟨"Y", "y@example.com", none⟩,
         ⟨"Z", "alice@example.com", none⟩]).1.errors =
      some ["Row 3: Email alice@example.com already exists"] := by
  refine ⟨fun validEmail db input => ?_, by decide, by decide⟩
  obtain ⟨newCs, newEs, h1, h2, h3, h4⟩ :=
    bulkLoop_accounting validEmail input 0 db [] []
  rw [List.nil_append] at h1
  rw [List.nil_append] at h2
  refine ⟨?_, ?_, ?_⟩
  · show (bulkLoop validEmail input 0 db [] []).1.length +
      ((if (bulkLoop validEmail input 0 db [] []).2.1 = [] then none
        else some (bulkLoop validEmail input 0 db [] []).2.1).getD []).length = input.length
    by_cases hne : (bulkLoop validEmail input 0 db [] []).2.1 = []
    · rw [if_pos hne]
      have hz : newEs = [] := by rw [← h2]; exact hne
      rw [h1]
      simp only [Option.getD_none, List.length_nil]
      rw [hz] at h4
      simpa using h4
    · rw [if_neg hne]
      rw [h1, h2]
      simpa using h4
  · show (decide ((bulkLoop validEmail input 0 db [] []).1.length > 0) = true ↔ _)
    rw [decide_eq_true_iff]
    exact ⟨fun h => List.length_pos.mp h, fun h => List.length_pos.mpr h⟩
  · show (bulkLoop validEmail input 0 db [] []).2.2.customers =
      db.customers ++ (bulkLoop validEmail input 0 db [] []).1
    rw [h3, h1]

/- ==================== Claim C10 ==================== -/

/-- One step of the bulk loop when validate_email rejects the entry. -/
lemma bulkLoop_cons_validation_error (v : String → Option String)
    (d : CustomerInput) (M : List CustomerInput) (idx : Nat) (db : DB)
    (cs : List Customer) (es : List String) (err : String)
    (hv : v d.email = some err) :
    bulkLoop v (d :: M) idx db cs es =
      bulkLoop v M (idx + 1) db cs
        (es ++ ["Row " ++ toString (idx + 1) ++ ": Validation error - " ++ err]) := by
  rw [bulkLoop, hv]

/-- One step of the bulk loop when the entry duplicates an existing email. -/
lemma bulkLoop_cons_duplicate (v : String → Option String)
    (d : CustomerInput) (M : List CustomerInput) (idx : Nat) (db : DB)
    (cs : List Customer) (es : List String)
    (hv : v d.email = none)
    (hdup : db.customers.any (fun c => c.email = d.email) = true) :
    bulkLoop v (d :: M) idx db cs es =
      bulkLoop v M (idx + 1) db cs
        (es ++ ["Row " ++ toString (idx + 1) ++ ": Email " ++ d.email ++ " already exists"]) := by
  rw [bulkLoop, hv]
  show (if db.customers.any (fun c => c.email = d.email) = true then _ else _) = _
  rw [if_pos hdup]

/-- One step of the bulk loop when the entry fails phone validation. -/
lemma bulkLoop_cons_bad_phone (v : String → Option String)
    (d : CustomerInput) (M : List CustomerInput) (idx : Nat) (db : DB)
    (cs : List Customer) (es : List String)
    (hv : v d.email = none)
    (hdup : db.customers.any (fun c => c.email = d.email) = false)
    (hph : (pyTruthy d.phone && !validate_phone (d.phone.getD "")) = true) :
    bulkLoop v (d :: M) idx db cs es =
      bulkLoop v M (idx + 1) db cs
        (es ++ ["Row " ++ toString (idx + 1) ++ ": Invalid phone format for " ++ d.email]) := by
  rw [bulkLoop, hv]
  show (if db.customers.any (fun c => c.email = d.email) = true then _ else _) = _
  rw [if_neg (by simp [hdup])]
  show (if (pyTruthy d.phone && !validate_phone (d.phone.getD "")) = true then _ else _) = _
  rw [if_pos hph]

/-- One step of the bulk loop when the entry is valid: the customer row is
created immediately, before the remaining entries are processed. -/
lemma bulkLoop_cons_create (v : String → Option String)
    (d : CustomerInput) (M : List CustomerInput) (idx : Nat) (db : DB)
    (cs : List Customer) (es : List String)
    (hv : v d.email = none)
    (hdup : db.customers.any (fun c => c.email = d.email) = false)
    (hph : (pyTruthy d.phone && !validate_phone (d.phone.getD "")) = false) :
    bulkLoop v (d :: M) idx db cs es =
      bulkLoop v M (idx + 1) (insertCustomer db (customerFromInput db d))
        (cs ++ [customerFromInput db d]) es := by
  rw [bulkLoop, hv]
  show (if db.customers.any (fun c => c.email = d.email) = true then _ else _) = _
  rw [if_neg (by simp [hdup])]
  show (if (pyTruthy d.phone && !validate_phone (d.phone.getD "")) = true then _ else _) = _
  rw [if_neg (by simp [hph])]

/-- The bulk loop over a concatenation is the loop over the first part
followed by the loop over the second, with the enumerate index advanced. -/
lemma bulkLoop_append (v : String → Option String) (l1 l2 : List CustomerInput) :
    ∀ idx db cs es,
      bulkLoop v (l1 ++ l2) idx db cs es =
        bulkLoop v l2 (idx + l1.length)
          (bulkLoop v l1 idx db cs es).2.2
          (bulkLoop v l1 idx db cs es).1
          (bulkLoop v l1 idx db cs es).2.1 := by
  induction l1 with
  | nil => intro idx db cs es; rfl
  | cons d rest ih =>
    intro idx db cs es
    have harith : idx + 1 + rest.length = idx + (rest.length + 1) := by omega
    cases hv : v d.email with
    | some err =>
      rw [List.cons_append, bulkLoop_cons_validation_error v d (rest ++ l2) idx db cs es err hv,
          ih (idx + 1) db cs _, bulkLoop_cons_validation_error v d rest idx db cs es err hv,
          List.length_cons, harith]
    | none =>
      cases hdup : db.customers.any (fun c => c.email = d.email) with
      | true =>
        rw [List.cons_append, bulkLoop_cons_duplicate v d (rest ++ l2) idx db cs es hv hdup,
            ih (idx + 1) db cs _, bulkLoop_cons_duplicate v d rest idx db cs es hv hdup,
            List.length_cons, harith]
      | false =>
        cases hph : (pyTruthy d.phone && !validate_phone (d.phone.getD "")) with
        | true =>
          rw [List.cons_append, bulkLoop_cons_bad_phone v d (rest ++ l2) idx db cs es hv hdup hph,
              ih (idx + 1) db cs _, bulkLoop_cons_bad_phone v d rest idx db cs es hv hdup hph,
              List.length_cons, harith]
        | false =>
          rw [List.cons_append, bulkLoop_cons_create v d (rest ++ l2) idx db cs es hv hdup hph,
              ih (idx + 1) _ _ _, bulkLoop_cons_create v d rest idx db cs es hv hdup hph,
              List.length_cons, harith]

/-- Every customer the bulk loop adds to the accumulator carries the email
of some input entry. -/
lemma bulkLoop_created_emails (v : String → Option String) :
    ∀ (l : List CustomerInput) (idx : Nat) (db : DB) (cs : List Customer)
      (es : List String) (c : Customer),
      c ∈ (bulkLoop v l idx db cs es).1 →
      c ∈ cs ∨ ∃ x ∈ l, c.email = x.email := by
  intro l
  induction l with
  | nil => intro idx db cs es c hc; exact Or.inl hc
  | cons d rest ih =>
    intro idx db cs es c hc
    cases hv : v d.email with
    | some err =>
      rw [bulkLoop_cons_validation_error v d rest idx db cs es err hv] at hc
      rcases ih (idx + 1) db cs _ c hc with h | ⟨x, hx, he⟩
      · exact Or.inl h
      · exact Or.inr ⟨x, List.mem_cons_of_mem d hx, he⟩
    | none =>
      cases hdup : db.customers.any (fun x => x.email = d.email) with
      | true =>
        rw [bulkLoop_cons_duplicate v d rest idx db cs es hv hdup] at hc
        rcases ih (idx + 1) db cs _ c hc with h | ⟨x, hx, he⟩
        · exact Or.inl h
        · exact Or.inr ⟨x, List.mem_cons_of_mem d hx, he⟩
      | false =>
        cases hph : (pyTruthy d.phone && !validate_phone (d.phone.getD "")) with
        | true =>
          rw [bulkLoop_cons_bad_phone v d rest idx db cs es hv hdup hph] at hc
          rcases ih (idx + 1) db cs _ c hc with h | ⟨x, hx, he⟩
          · exact Or.inl h
          · exact Or.inr ⟨x, List.mem_cons_of_mem d hx, he⟩
        | false =>
          rw [bulkLoop_cons_create v d rest idx db cs es hv hdup hph] at hc
          rcases ih (idx + 1) _ _ _ c hc with h | ⟨x, hx, he⟩
          · rcases List.mem_append.mp h with h2 | h2
            · exact Or.inl h2
            · refine Or.inr ⟨d, List.mem_cons_self d rest, ?_⟩
              rw [List.mem_singleton.mp h2]
              rfl
          · exact Or.inr ⟨x, List.mem_cons_of_mem d hx, he⟩

/-- Processing any batch while a given acceptable email is already present
in the customer table: every entry carrying that email contributes its
Row-numbered duplicate-email error string, and no customer with that email
is added to the accumulator — the entries with other emails are processed
as usual. -/
lemma bulkLoop_with_email_present (v : String → Option String) (e : String)
    (hv : v e = none) :
    ∀ (l : List CustomerInput) (idx : Nat) (db : DB) (cs : List Customer)
      (es : List String),
      db.customers.any (fun c => c.email = e) = true →
      (∀ j (hj : j < l.length), (l.get ⟨j, hj⟩).email = e →
        ("Row " ++ toString (idx + j + 1) ++ ": Email " ++ e ++ " already exists") ∈
          (bulkLoop v l idx db cs es).2.1) ∧
      (bulkLoop v l idx db cs es).1.filter (fun c => c.email = e) =
        cs.filter (fun c => c.email = e) := by
  intro l
  induction l with
  | nil =>
    intro idx db cs es _
    exact ⟨fun j hj => absurd hj (Nat.not_lt_zero j), rfl⟩
  | cons d rest ih =>
    intro idx db cs es hpres
    by_cases hde : d.email = e
    · have hv2 : v d.email = none := by rw [hde]; exact hv
      have hdup : db.customers.any (fun c => c.email = d.email) = true := by
        rw [hde]; exact hpres
      rw [bulkLoop_cons_duplicate v d rest idx db cs es hv2 hdup, hde]
      obtain ⟨ih1, ih2⟩ := ih (idx + 1) db cs
        (es ++ ["Row " ++ toString (idx + 1) ++ ": Email " ++ e ++ " already exists"]) hpres
      refine ⟨fun j hj hje => ?_, ih2⟩
      cases j with
      | zero =>
        obtain ⟨newCs, newEs, h1, h2, h3, h4⟩ := bulkLoop_accounting v rest (idx + 1) db cs
          (es ++ ["Row " ++ toString (idx + 1) ++ ": Email " ++ e ++ " already exists"])
        rw [h2]
        exact List.mem_append_left newEs
          (List.mem_append_right es (List.mem_singleton.mpr rfl))
      | succ j =>
        have hj2 : j < rest.length := Nat.lt_of_succ_lt_succ hj
        have hmem := ih1 j hj2 hje
        have harith : idx + 1 + j + 1 = idx + (j + 1) + 1 := by omega
        rw [harith] at hmem
        exact hmem
    · have tail : ∀ es2, (∀ j (hj : j < rest.length), (rest.get ⟨j, hj⟩).email = e →
          ("Row " ++ toString (idx + 1 + j + 1) ++ ": Email " ++ e ++ " already exists") ∈
            (bulkLoop v rest (idx + 1) db cs es2).2.1) →
          ∀ j (hj : j < (d :: rest).length), ((d :: rest).get ⟨j, hj⟩).email = e →
          ("Row " ++ toString (idx + j + 1) ++ ": Email " ++ e ++ " already exists") ∈
            (bulkLoop v rest (idx + 1) db cs es2).2.1 := by
        intro es2 h1 j hj hje
        cases j with
        | zero => exact absurd hje hde
        | succ j =>
          have hj2 : j < rest.length := Nat.lt_of_succ_lt_succ hj
          have hmem := h1 j hj2 hje
          have harith : idx + 1 + j + 1 = idx + (j + 1) + 1 := by omega
          rw [harith] at hmem
          exact hmem
      cases hv2 : v d.email with
      | some err =>
        rw [bulkLoop_cons_validation_error v d rest idx db cs es err hv2]
        obtain ⟨ih1, ih2⟩ := ih (idx + 1) db cs _ hpres
        exact ⟨tail _ ih1, ih2⟩
      | none =>
        cases hdup : db.customers.any (fun c => c.email = d.email) with
        | true =>
          rw [bulkLoop_cons_duplicate v d rest idx db cs es hv2 hdup]
          obtain ⟨ih1, ih2⟩ := ih (idx + 1) db cs _ hpres
          exact ⟨tail _ ih1, ih2⟩
        | false =>
          cases hph : (pyTruthy d.phone && !validate_phone (d.phone.getD "")) with
          | true =>
            rw [bulkLoop_cons_bad_phone v d rest idx db cs es hv2 hdup hph]
            obtain ⟨ih1, ih2⟩ := ih (idx + 1) db cs _ hpres
            exact ⟨tail _ ih1, ih2⟩
          | false =>
            rw [bulkLoop_cons_create v d rest idx db cs es hv2 hdup hph]
            have hpres2 : (insertCustomer db (customerFromInput db d)).customers.any
                (fun c => c.email = e) = true := by
              simp [insertCustomer, hpres]
            obtain ⟨ih1, ih2⟩ := ih (idx + 1) (insertCustomer db (customerFromInput db d))
              (cs ++ [customerFromInput db d]) es hpres2
            refine ⟨?_, ?_⟩
            · intro j hj hje
              cases j with
              | zero => exact absurd hje hde
              | succ j =>
                have hj2 : j < rest.length := Nat.lt_of_succ_lt_succ hj
                have hmem := ih1 j hj2 hje
                have harith : idx + 1 + j + 1 = idx + (j + 1) + 1 := by omega
                rw [harith] at hmem
                exact hmem
            · rw [ih2, List.filter_append]
              simp [customerFromInput, hde]

/-- Claim C10: in one BulkCreateCustomers call over an arbitrary batch,
when several entries share an acceptable email not yet in the database,
only the first such entry produces a customer with that email — exactly one
row with that email is created and persisted — and every later entry with
that email, wherever it sits among the other entries, contributes its
per-row duplicate-email error string, because each duplicate check runs
against the table as already extended by the earlier entries of the same
call. -/
theorem c10_bulk_duplicate_within_call (validEmail : String → Option String)
    (db : DB) (e : String) (pre : List CustomerInput) (first : CustomerInput)
    (post : List CustomerInput)
    (hv : validEmail e = none)
    (hfresh : db.customers.any (fun c => c.email = e) = false)
    (hpre : ∀ x ∈ pre, x.email ≠ e)
    (hfe : first.email = e)
    (hph : (pyTruthy first.phone && !validate_phone (first.phone.getD "")) = false) :
    (∃ c, c.name = first.name ∧ c.email = e ∧
      (BulkCreateCustomers.mutate validEmail db (pre ++ first :: post)).1.customers.filter
        (fun x => x.email = e) = [c] ∧
      (BulkCreateCustomers.mutate validEmail db (pre ++ first :: post)).2.customers.filter
        (fun x => x.email = e) = [c]) ∧
    (∀ j (hj : j < post.length), (post.get ⟨j, hj⟩).email = e →
      ("Row " ++ toString (pre.length + j + 2) ++ ": Email " ++ e ++ " already exists") ∈
        ((BulkCreateCustomers.mutate validEmail db (pre ++ first :: post)).1.errors.getD [])) := by
  have hv1 : validEmail first.email = none := by rw [hfe]; exact hv
  have hsplit := bulkLoop_append validEmail pre (first :: post) 0 db [] []
  rw [Nat.zero_add] at hsplit
  have hpreNoE : ∀ c ∈ (bulkLoop validEmail pre 0 db [] []).1, ¬(c.email = e) := by
    intro c hc
    rcases bulkLoop_created_emails validEmail pre 0 db [] [] c hc with h | ⟨x, hx, hex⟩
    · exact absurd h (List.not_mem_nil c)
    · rw [hex]; exact hpre x hx
  obtain ⟨preCs, preEs, hp1, hp2, hp3, hp4⟩ := bulkLoop_accounting validEmail pre 0 db [] []
  rw [List.nil_append] at hp1
  have hfresh1 : (bulkLoop validEmail pre 0 db [] []).2.2.customers.any
      (fun c => c.email = e) = false := by
    rw [hp3, List.any_append, hfresh, Bool.false_or, ← hp1]
    refine List.any_eq_false.mpr (fun c hc => ?_)
    simpa using hpreNoE c hc
  have hdup1 : (bulkLoop validEmail pre 0 db [] []).2.2.customers.any
      (fun c => c.email = first.email) = false := by
    rw [hfe]; exact hfresh1
  have hfull : bulkLoop validEmail (pre ++ first :: post) 0 db [] [] =
      bulkLoop validEmail post (pre.length + 1)
        (insertCustomer (bulkLoop validEmail pre 0 db [] []).2.2
          (customerFromInput (bulkLoop validEmail pre 0 db [] []).2.2 first))
        ((bulkLoop validEmail pre 0 db [] []).1 ++
          [customerFromInput (bulkLoop validEmail pre 0 db [] []).2.2 first])
        (bulkLoop validEmail pre 0 db [] []).2.1 :=
    hsplit.trans (bulkLoop_cons_create validEmail first post pre.length
      (bulkLoop validEmail pre 0 db [] []).2.2
      (bulkLoop validEmail pre 0 db [] []).1
      (bulkLoop validEmail pre 0 db [] []).2.1 hv1 hdup1 hph)
  have hc1e : (customerFromInput (bulkLoop validEmail pre 0 db [] []).2.2 first).email = e := hfe
  have hpres2 : (insertCustomer (bulkLoop validEmail pre 0 db [] []).2.2
      (customerFromInput (bulkLoop validEmail pre 0 db [] []).2.2 first)).customers.any
      (fun c => c.email = e) = true := by
    simp [insertCustomer, customerFromInput, hfe]
  obtain ⟨hErr, hFilt⟩ := bulkLoop_with_email_present validEmail e hv post (pre.length + 1)
    (insertCustomer (bulkLoop validEmail pre 0 db [] []).2.2
      (customerFromInput (bulkLoop validEmail pre 0 db [] []).2.2 first))
    ((bulkLoop validEmail pre 0 db [] []).1 ++
      [customerFromInput (bulkLoop validEmail pre 0 db [] []).2.2 first])
    (bulkLoop validEmail pre 0 db [] []).2.1 hpres2
  have hfiltCs2 : ((bulkLoop validEmail pre 0 db [] []).1 ++
      [customerFromInput (bulkLoop validEmail pre 0 db [] []).2.2 first]).filter
      (fun x => x.email = e) =
      [customerFromInput (bulkLoop validEmail pre 0 db [] []).2.2 first] := by
    rw [List.filter_append,
        List.filter_eq_nil_iff.mpr (fun c hc => by simpa using hpreNoE c hc),
        List.nil_append]
    simp [hc1e]
  obtain ⟨allCs, allEs, ha1, ha2, ha3, ha4⟩ :=
    bulkLoop_accounting validEmail (pre ++ first :: post) 0 db [] []
  rw [List.nil_append] at ha1
  refine ⟨⟨customerFromInput (bulkLoop validEmail pre 0 db [] []).2.2 first,
    rfl, hc1e, ?_, ?_⟩, ?_⟩
  · show (bulkLoop validEmail (pre ++ first :: post) 0 db [] []).1.filter
      (fun x => x.email = e) = _
    rw [hfull, hFilt, hfiltCs2]
  · show (bulkLoop validEmail (pre ++ first :: post) 0 db [] []).2.2.customers.filter
      (fun x => x.email = e) = _
    rw [ha3, List.filter_append,
        List.filter_eq_nil_iff.mpr (fun c hc => List.any_eq_false.mp hfresh c hc),
        List.nil_append, ← ha1, hfull, hFilt, hfiltCs2]
  · intro j hj hje
    have hmem := hErr j hj hje
    rw [← hfull] at hmem
    have harith : pre.length + 1 + j + 1 = pre.length + j + 2 := by omega
    rw [harith] at hmem
    show _ ∈ ((if (bulkLoop validEmail (pre ++ first :: post) 0 db [] []).2.1 = [] then none
      else some ((bulkLoop validEmail (pre ++ first :: post) 0 db [] []).2.1)).getD [])
    rw [if_neg (by
      intro hnil
      rw [hnil] at hmem
      exact absurd hmem (List.not_mem_nil _))]
    exact hmem

/-- Claim C10, witness: in the batch [Ann, Bob, Carl, Bobby] where Bob and
Bobby share the fresh email bob@example.com and Carl sits between them,
exactly one created customer carries that email (Bob, the first sharer),
and Bobby — at row 4 — is rejected with the duplicate-email error. -/
theorem c10_witness :
    (∃ c, c.name = "Bob" ∧ c.email = "bob@example.com" ∧
      (BulkCreateCustomers.mutate (fun _ => none) dbEx
        [⟨"Ann", "ann@example.com", none⟩, ⟨"Bob", "bob@example.com", none⟩,
         ⟨"Carl", "carl@example.com", none⟩,
         ⟨"Bobby", "bob@example.com", none⟩]).1.customers.filter
        (fun x => x.email = "bob@example.com") = [c]) ∧
    ("Row 4: Email bob@example.com already exists" ∈
      ((BulkCreateCustomers.mutate (fun _ => none) dbEx
        [⟨"Ann", "ann@example.com", none⟩, ⟨"Bob", "bob@example.com", none⟩,
         ⟨"Carl", "carl@example.com", none⟩,
         ⟨"Bobby", "bob@example.com", none⟩]).1.errors.getD [])) := by
  have h := c10_bulk_duplicate_within_call (fun _ => none) dbEx "bob@example.com"
    [⟨"Ann", "ann@example.com", none⟩] ⟨"Bob", "bob@example.com", none⟩
    [⟨"Carl", "carl@example.com", none⟩, ⟨"Bobby", "bob@example.com", none⟩]
    rfl (by decide) (by decide) rfl (by decide)
  obtain ⟨⟨c, hcn, hce, hcf, -⟩, herr⟩ := h
  refine ⟨⟨c, hcn, hce, hcf⟩, ?_⟩
  have hmem := herr 1 (by decide) rfl
  exact hmem

/- ==================== Claim C2 ==================== -/

/-- Folding row saves over the table acts pointwise on the rows. -/
lemma foldl_saveProduct (qs : List Product) (ps : List Product) :
    qs.foldl saveProduct ps = ps.map (applySaves qs) := by
  induction qs generalizing ps with
  | nil =>
    show ps = ps.map (fun p => p)
    rw [List.map_id']
  | cons q rest ih =>
    rw [List.foldl_cons, ih (saveProduct ps q), saveProduct, List.map_map]
    rfl

/-- A row untouched by every save in the list is unchanged. -/
lemma applySaves_of_not_mem (qs : List Product) (p : Product)
    (h : ∀ q ∈ qs, q.id ≠ p.id) : applySaves qs p = p := by
  induction qs with
  | nil => rfl
  | cons q rest ih =>
    rw [applySaves, List.foldl_cons,
        if_neg (fun hh => h q (List.mem_cons_self q rest) hh.symm)]
    exact ih (fun r hr => h r (List.mem_cons_of_mem q hr))

/-- With pairwise-distinct save keys, a row whose key matches one save
becomes exactly that saved record. -/
lemma applySaves_of_mem (qs : List Product) (p q : Product)
    (hnd : (qs.map (fun x => x.id)).Nodup) (hq : q ∈ qs) (hid : q.id = p.id) :
    applySaves qs p = q := by
  induction qs with
  | nil => cases hq
  | cons r rest ih =>
    have hnd2 : (rest.map (fun x => x.id)).Nodup := (List.nodup_cons.mp hnd).2
    rcases List.mem_cons.mp hq with rfl | hq2
    · rw [applySaves, List.foldl_cons, if_pos hid.symm]
      refine applySaves_of_not_mem rest q (fun s hs hss => ?_)
      have hm : s.id ∈ rest.map (fun x => x.id) :=
        List.mem_map_of_mem (fun x => x.id) hs
      rw [hss] at hm
      exact (List.nodup_cons.mp hnd).1 hm
    · have hrq : r.id ≠ q.id := fun hh => by
        have hm : q.id ∈ rest.map (fun x => x.id) :=
          List.mem_map_of_mem (fun x => x.id) hq2
        rw [← hh] at hm
        exact (List.nodup_cons.mp hnd).1 hm
      rw [applySaves, List.foldl_cons, if_neg (fun hh => hrq (hh.symm.trans hid.symm))]
      exact ih hnd2 hq2

/-- The per-product restock of UpdateLowStockProducts: with distinct primary
keys, the loop of saves amounts to bumping every low-stock row in place. -/
lemma restock_products_pointwise (db : DB)
    (hnd : (db.products.map (fun p => p.id)).Nodup) :
    (UpdateLowStockProducts.mutate db).2.products =
      db.products.map (fun p => if p.stock < 10 then bumpStock p else p) := by
  show ((db.products.filter (fun p => p.stock < 10)).map bumpStock).foldl
      saveProduct db.products = _
  rw [foldl_saveProduct]
  refine List.map_congr_left (fun p hp => ?_)
  have hqnd : (((db.products.filter (fun p => p.stock < 10)).map bumpStock).map
      (fun x => x.id)).Nodup := by
    rw [List.map_map]
    exact ((List.filter_sublist db.products).map (fun x => x.id)).nodup hnd
  by_cases hps : p.stock < 10
  · rw [if_pos hps]
    refine applySaves_of_mem _ p (bumpStock p) hqnd ?_ rfl
    exact List.mem_map_of_mem bumpStock
      (List.mem_filter.mpr ⟨hp, by simpa using hps⟩)
  · rw [if_neg hps]
    refine applySaves_of_not_mem _ p (fun q hq => ?_)
    obtain ⟨r, hr, rfl⟩ := List.mem_map.mp hq
    have hrf := List.mem_filter.mp hr
    intro hh
    have : r = p := List.inj_on_of_nodup_map hnd hrf.1 hp hh
    exact hps (by simpa [this] using hrf.2)

/-- Claim C2: UpdateLowStockProducts increments by exactly 10 the stock of
every product whose stock is strictly below 10, persists each such product,
returns exactly those updated products, and leaves every product with
stock ≥ 10 untouched in the table. -/
theorem c2_updateLowStock_restock (db : DB)
    (hnd : (db.products.map (fun p => p.id)).Nodup) :
    (UpdateLowStockProducts.mutate db).2.products =
      db.products.map (fun p => if p.stock < 10 then bumpStock p else p) ∧
    (UpdateLowStockProducts.mutate db).1.updated_products =
      (db.products.filter (fun p => p.stock < 10)).map bumpStock ∧
    (∀ p ∈ db.products, 10 ≤ p.stock →
      p ∈ (UpdateLowStockProducts.mutate db).2.products) := by
  refine ⟨restock_products_pointwise db hnd, rfl, fun p hp hs => ?_⟩
  rw [restock_products_pointwise db hnd]
  have : (if p.stock < 10 then bumpStock p else p) = p := if_neg (by omega)
  exact this ▸ List.mem_map_of_mem _ hp

/-- Claim C2, witness: against products with stocks [3, 15, 7] exactly the
two below 10 are bumped, yielding [13, 15, 17], and the mutation returns
exactly those two updated products. -/
theorem c2_witness :
    (dbStocks.products.map (fun p => p.id)).Nodup ∧
    (UpdateLowStockProducts.mutate dbStocks).2.products.map (fun p => p.stock) =
      [13, 15, 17] ∧
    (UpdateLowStockProducts.mutate dbStocks).1.updated_products.map
      (fun p => p.stock) = [13, 17] := by
  refine ⟨by decide, ?_, by decide⟩
  rw [(c2_updateLowStock_restock dbStocks (by decide)).1]
  decide
